import Mathlib

/-!
Verification of the `LLMModel` adapter (`src/models/llm.py`).

The adapter resolves a provider identifier ("gpt4" / "claude") to a
configuration record taken from the injected `LLM_CONFIG` mapping, builds a
network-client handle (`ChatOpenAI` / `ChatAnthropic`), supports credential
rotation with handle rebuild, and normalizes response text
(`process_response`).

Python-level effects are made explicit:
  * exceptions are `Except` values (`PyError` distinguishes the `KeyError`
    raised by `LLM_CONFIG[model_type]` from the `ValueError` raised by
    `_initialize_model`'s final branch);
  * object allocation (each `ChatOpenAI(...)` / `ChatAnthropic(...)` call
    returns a fresh object) is modelled by threading an allocation counter:
    a `ClientHandle` carries an `objId`, Python's `is` identity;
  * Python `str` values are lists of Unicode code points (`List Nat`,
    each `< 0x110000`; lone surrogates are representable, as in CPython).
-/

/-- A record of the `LLM_CONFIG` mapping: per the spec,
`{model_name : string, temperature : float, max_tokens : integer}`.
Temperatures are modelled as rationals. -/
structure ConfigRecord where
  model_name : String
  temperature : Rat
  max_tokens : Nat
deriving DecidableEq, Repr

/-- Python exceptions relevant to the adapter: the `KeyError` raised by the
dictionary lookup `LLM_CONFIG[model_type]` in `__init__`, and the
`ValueError(f"Unsupported model type: ...")` raised by the final branch of
`_initialize_model`. -/
inductive PyError where
  | keyError (key : String)
  | valueError (msg : String)
deriving DecidableEq, Repr

/-- The constructor-call data of a client handle: which collaborator
constructor was invoked (`ChatOpenAI` for "gpt4", `ChatAnthropic` for
"claude") and with which arguments, exactly as written in
`_initialize_model`. -/
inductive ClientSpec where
  | chatOpenAI (model_name : String) (temperature : Rat) (max_tokens : Nat)
      (api_key : Option String) (request_timeout : Rat)
  | chatAnthropic (model_name : String) (temperature : Rat) (max_tokens : Nat)
      (anthropic_api_key : Option String) (timeout : Rat)
deriving DecidableEq, Repr

/-- A client handle: the constructor-call data plus the identity (`objId`) of
the allocated object. Two handles built by two constructor calls always have
distinct `objId`s even when the argument lists coincide (Python `is`). -/
structure ClientHandle where
  objId : Nat
  spec : ClientSpec
deriving DecidableEq, Repr

/-- The model name the handle was constructed with. -/
def ClientHandle.model_name (h : ClientHandle) : String :=
  match h.spec with
  | .chatOpenAI mn _ _ _ _ => mn
  | .chatAnthropic mn _ _ _ _ => mn

/-- The temperature the handle was constructed with. -/
def ClientHandle.temperature (h : ClientHandle) : Rat :=
  match h.spec with
  | .chatOpenAI _ t _ _ _ => t
  | .chatAnthropic _ t _ _ _ => t

/-- The token budget the handle was constructed with. -/
def ClientHandle.max_tokens (h : ClientHandle) : Nat :=
  match h.spec with
  | .chatOpenAI _ _ mt _ _ => mt
  | .chatAnthropic _ _ mt _ _ => mt

/-- The credential the handle was constructed with (`api_key=` for
`ChatOpenAI`, `anthropic_api_key=` for `ChatAnthropic`). -/
def ClientHandle.credential (h : ClientHandle) : Option String :=
  match h.spec with
  | .chatOpenAI _ _ _ k _ => k
  | .chatAnthropic _ _ _ k _ => k

/-- The request timeout the handle was constructed with (`request_timeout=`
for `ChatOpenAI`, `timeout=` for `ChatAnthropic`). -/
def ClientHandle.timeout (h : ClientHandle) : Rat :=
  match h.spec with
  | .chatOpenAI _ _ _ _ tmo => tmo
  | .chatAnthropic _ _ _ _ tmo => tmo

/-- The state of an `LLMModel` instance: the four attributes set by
`__init__` (`self.model_type`, `self.config`, `self.api_key`,
`self.model`). -/
structure LLMModel where
  model_type : String
  config : ConfigRecord
  api_key : Option String
  model : ClientHandle
deriving DecidableEq, Repr

/-- `LLMModel._initialize_model` (named `init_model` here): dispatches on
`self.model_type`, calling `ChatOpenAI` for "gpt4" and `ChatAnthropic` for
"claude" with the configuration fields, the stored credential and
`request_timeout = 600.0`; any other `model_type` raises
`ValueError(f"Unsupported model type: {model_type}")`. The constructor call
allocates a fresh object: it consumes the allocation counter `nextId` and
returns the successor counter. -/
def LLMModel.init_model (model_type : String) (config : ConfigRecord)
    (api_key : Option String) (nextId : Nat) :
    Except PyError (ClientHandle × Nat) :=
  let request_timeout : Rat := 600
  if model_type = "gpt4" then
    .ok (⟨nextId, .chatOpenAI config.model_name config.temperature
      config.max_tokens api_key request_timeout⟩, nextId + 1)
  else if model_type = "claude" then
    .ok (⟨nextId, .chatAnthropic config.model_name config.temperature
      config.max_tokens api_key request_timeout⟩, nextId + 1)
  else
    .error (.valueError ("Unsupported model type: " ++ model_type))

/-- `LLMModel.__init__(model_type="gpt4", api_key=None)`: stores
`model_type` and `api_key`, looks up `LLM_CONFIG[model_type]` (a missing key
raises `KeyError`), then builds the client handle via `_initialize_model`.
The `LLM_CONFIG` mapping (defined in `src/config/settings.py`, outside the
sources) is passed explicitly as `cfg`. -/
def LLMModel.init (cfg : String → Option ConfigRecord) (nextId : Nat)
    (model_type : String := "gpt4") (api_key : Option String := none) :
    Except PyError (LLMModel × Nat) :=
  match cfg model_type with
  | none => .error (.keyError model_type)
  | some config =>
    match LLMModel.init_model model_type config api_key nextId with
    | .error e => .error e
    | .ok (handle, nextId') =>
      .ok ({ model_type := model_type, config := config, api_key := api_key
             model := handle }, nextId')

/-- `LLMModel.get_model`: returns `self.model`. -/
def LLMModel.get_model (self : LLMModel) : ClientHandle :=
  self.model

/-- `LLMModel.update_api_key(api_key)`: assigns `self.api_key = api_key`
first, then rebuilds `self.model` via `_initialize_model`. Should the
rebuild raise (the `ValueError` branch), the exception carries the state as
mutated so far — Python performs no rollback of the `self.api_key`
assignment. -/
def LLMModel.update_api_key (self : LLMModel) (api_key : String)
    (nextId : Nat) : Except (PyError × LLMModel) (LLMModel × Nat) :=
  let self1 : LLMModel := { self with api_key := some api_key }
  match LLMModel.init_model self1.model_type self1.config self1.api_key nextId with
  | .error e => .error (e, self1)
  | .ok (handle, nextId') => .ok ({ self1 with model := handle }, nextId')

/-- Modelled from the spec: the `LLM_CONFIG` mapping lives in
`src/config/settings.py`, which is not among the sources. The spec fixes its
keys — exactly `"gpt4"` and `"claude"` — and the field types of its records;
the concrete field values are unconstrained, so this predicate only pins the
key set. -/
def specConfigKeys (cfg : String → Option ConfigRecord) : Prop :=
  ∀ k, (cfg k).isSome ↔ (k = "gpt4" ∨ k = "claude")

/-- Modelled from the spec: a concrete instance of the `LLM_CONFIG` mapping
with the spec-mandated keys `"gpt4"` and `"claude"`; the record values are
sample values (the spec constrains only their types and ranges), used to
instantiate witnesses. -/
def sampleConfig : String → Option ConfigRecord := fun k =>
  if k = "gpt4" then some ⟨"gpt-4", 0, 4096⟩
  else if k = "claude" then some ⟨"claude-3-opus", 0, 4096⟩
  else none

theorem sampleConfig_specKeys : specConfigKeys sampleConfig := by
  intro k
  unfold sampleConfig
  by_cases h1 : k = "gpt4" <;> by_cases h2 : k = "claude" <;>
    simp [h1, h2]

/-- Is the code point a (lone) surrogate, i.e. unencodable in UTF-8? -/
def isSurrogateCp (c : Nat) : Prop := 0xD800 ≤ c ∧ c ≤ 0xDFFF

instance (c : Nat) : Decidable (isSurrogateCp c) := by
  unfold isSurrogateCp; infer_instance

/-- A list of code points is a Python `str` when every code point is below
`0x110000` (CPython's representation invariant; lone surrogates allowed). -/
def PyValidStr (s : List Nat) : Prop := ∀ c ∈ s, c < 0x110000

instance (s : List Nat) : Decidable (PyValidStr s) := by
  unfold PyValidStr; infer_instance

/-- UTF-8 encoding of one code point under `errors='replace'`: a surrogate —
the only code point below `0x110000` UTF-8 cannot represent — is replaced by
`b"?"` (`0x3F`), CPython's replacement for the `'replace'` error handler on
encoding; every other code point yields its standard 1–4 byte sequence. -/
def encodeCharUtf8Replace (c : Nat) : List Nat :=
  if c < 0x80 then [c]
  else if c < 0x800 then [0xC0 + c / 0x40, 0x80 + c % 0x40]
  else if isSurrogateCp c then [0x3F]
  else if c < 0x10000 then
    [0xE0 + c / 0x1000, 0x80 + c / 0x40 % 0x40, 0x80 + c % 0x40]
  else
    [0xF0 + c / 0x40000, 0x80 + c / 0x1000 % 0x40, 0x80 + c / 0x40 % 0x40,
     0x80 + c % 0x40]

/-- `str.encode('utf-8', errors='replace')`: byte string of the code-point
string, surrogates replaced by `?`. -/
def pyEncodeUtf8Replace : List Nat → List Nat
  | [] => []
  | c :: rest => encodeCharUtf8Replace c ++ pyEncodeUtf8Replace rest

/-- The strictness check a completed UTF-8 sequence of byte length `len`
decoding to value `v` must pass: no overlong forms, no surrogates, nothing
above `0x10FFFF`. -/
def utf8SeqValid (len v : Nat) : Prop :=
  (len = 2 ∧ 0x80 ≤ v) ∨
  (len = 3 ∧ 0x800 ≤ v ∧ ¬ isSurrogateCp v) ∨
  (len = 4 ∧ 0x10000 ≤ v ∧ v < 0x110000)

instance (len v : Nat) : Decidable (utf8SeqValid len v) := by
  unfold utf8SeqValid; infer_instance

/-- Byte-at-a-time UTF-8 decoding automaton: at a sequence boundary
(`need = 0`) it classifies the start byte; inside a sequence (`need = k + 1`
continuation bytes outstanding, of a sequence of total byte length `len`,
with accumulated value `acc`) it consumes one continuation byte, applying
`utf8SeqValid` when the sequence completes. -/
def utf8DecGo : List Nat → Nat → Nat → Nat → Except String (List Nat)
  | [], 0, _, _ => .ok []
  | [], _ + 1, _, _ => .error "UnicodeDecodeError: unexpected end of data"
  | b :: bs, 0, _, _ =>
    if b < 0x80 then (utf8DecGo bs 0 0 0).map (fun r => b :: r)
    else if b < 0xC2 then .error "UnicodeDecodeError: invalid start byte"
    else if b < 0xE0 then utf8DecGo bs 1 2 (b - 0xC0)
    else if b < 0xF0 then utf8DecGo bs 2 3 (b - 0xE0)
    else if b < 0xF5 then utf8DecGo bs 3 4 (b - 0xF0)
    else .error "UnicodeDecodeError: invalid start byte"
  | b :: bs, need + 1, len, acc =>
    if 0x80 ≤ b ∧ b < 0xC0 then
      if need = 0 then
        if utf8SeqValid len (acc * 0x40 + (b - 0x80)) then
          (utf8DecGo bs 0 0 0).map (fun r => (acc * 0x40 + (b - 0x80)) :: r)
        else .error "UnicodeDecodeError: invalid code point"
      else utf8DecGo bs need len (acc * 0x40 + (b - 0x80))
    else .error "UnicodeDecodeError: invalid continuation byte"

/-- `bytes.decode('utf-8')` (strict): decodes a byte list to code points,
raising `UnicodeDecodeError` (here: `Except.error`) on any invalid
sequence — bad start byte (including the overlong starts `0xC0`/`0xC1`),
truncated or malformed continuation, overlong form, surrogate, or value
above `0x10FFFF`. Accepts exactly the byte lists CPython's strict decoder
accepts. -/
def pyDecodeUtf8 (bs : List Nat) : Except String (List Nat) :=
  utf8DecGo bs 0 0 0

/-- Does `old` match the front of `s`? (The prefix test of `str.replace`'s
left-to-right scan.) -/
def matchesAt : List Nat → List Nat → Bool
  | [], _ => true
  | _ :: _, [] => false
  | o :: os, c :: cs => o = c && matchesAt os cs

/-- `str.replace(old, new)` for a nonempty `old`: scans left to right,
replacing each (non-overlapping) occurrence of `old` by `new`. (Python's
behaviour for `old = ""` — interleaving `new` everywhere — is not modelled;
the source only calls `replace` with one-character needles.) -/
def pyReplace (s old new : List Nat) : List Nat :=
  match s with
  | [] => []
  | c :: rest =>
    if old ≠ [] ∧ matchesAt old (c :: rest) then
      new ++ pyReplace (List.drop (old.length - 1) rest) old new
    else
      c :: pyReplace rest old new
termination_by s.length
decreasing_by
  · simp only [List.length_cons]
    have := List.length_drop (old.length - 1) rest
    omega
  · simp [List.length_cons]

/-- The body of `LLMModel.process_response`: re-encode to UTF-8 with
`errors='replace'` and decode back (strict), then replace EN DASH (U+2013)
by `"-"` and EM DASH (U+2014) by `"--"`. The decode step's potential
`UnicodeDecodeError` propagates as `Except.error`. -/
def process_response_core (response_content : List Nat) :
    Except String (List Nat) :=
  match pyDecodeUtf8 (pyEncodeUtf8Replace response_content) with
  | .error e => .error e
  | .ok r => .ok (pyReplace (pyReplace r [0x2013] [0x2D]) [0x2014] [0x2D, 0x2D])

/-- `LLMModel.process_response(self, response_content)` as a method: the
body reads and writes no attribute of `self`, so the state component of the
result is `self` itself. -/
def LLMModel.process_response (self : LLMModel) (response_content : List Nat) :
    LLMModel × Except String (List Nat) :=
  (self, process_response_core response_content)

/-- The action of `encode('utf-8', errors='replace')` followed by
`decode('utf-8')` on a single code point: a surrogate becomes `?` (`0x3F`),
everything else survives unchanged. -/
def reencodeChar (c : Nat) : Nat :=
  if isSurrogateCp c then 0x3F else c


theorem utf8DecGo_ascii (b : Nat) (bs : List Nat) (h : b < 0x80) :
    utf8DecGo (b :: bs) 0 0 0 = (utf8DecGo bs 0 0 0).map (fun r => b :: r) := by
  rw [utf8DecGo, if_pos h]

theorem utf8DecGo_start2 (b : Nat) (bs : List Nat) (h : 0xC2 ≤ b)
    (h' : b < 0xE0) : utf8DecGo (b :: bs) 0 0 0 = utf8DecGo bs 1 2 (b - 0xC0) := by
  rw [utf8DecGo, if_neg (by omega : ¬ b < 0x80),
    if_neg (by omega : ¬ b < 0xC2), if_pos h']

theorem utf8DecGo_start3 (b : Nat) (bs : List Nat) (h : 0xE0 ≤ b)
    (h' : b < 0xF0) : utf8DecGo (b :: bs) 0 0 0 = utf8DecGo bs 2 3 (b - 0xE0) := by
  rw [utf8DecGo, if_neg (by omega : ¬ b < 0x80),
    if_neg (by omega : ¬ b < 0xC2), if_neg (by omega : ¬ b < 0xE0), if_pos h']

theorem utf8DecGo_start4 (b : Nat) (bs : List Nat) (h : 0xF0 ≤ b)
    (h' : b < 0xF5) : utf8DecGo (b :: bs) 0 0 0 = utf8DecGo bs 3 4 (b - 0xF0) := by
  rw [utf8DecGo, if_neg (by omega : ¬ b < 0x80),
    if_neg (by omega : ¬ b < 0xC2), if_neg (by omega : ¬ b < 0xE0),
    if_neg (by omega : ¬ b < 0xF0), if_pos h']

theorem utf8DecGo_cont_mid (b need len acc : Nat) (bs : List Nat)
    (h : 0x80 ≤ b) (h' : b < 0xC0) :
    utf8DecGo (b :: bs) (need + 2) len acc =
      utf8DecGo bs (need + 1) len (acc * 0x40 + (b - 0x80)) := by
  rw [utf8DecGo, if_pos ⟨h, h'⟩, if_neg (by omega : ¬ need + 1 = 0)]

theorem utf8DecGo_cont_last (b len acc v : Nat) (bs : List Nat)
    (h : 0x80 ≤ b) (h' : b < 0xC0)
    (hv : acc * 0x40 + (b - 0x80) = v) (hval : utf8SeqValid len v) :
    utf8DecGo (b :: bs) 1 len acc =
      (utf8DecGo bs 0 0 0).map (fun r => v :: r) := by
  subst hv
  rw [utf8DecGo, if_pos ⟨h, h'⟩, if_pos rfl, if_pos hval]

/-- Decoding the `errors='replace'` encoding of one code point prepends
`reencodeChar c` and proceeds with the remaining bytes. -/
theorem pyDecodeUtf8_encodeChar (c : Nat) (hc : c < 0x110000)
    (rest : List Nat) :
    utf8DecGo (encodeCharUtf8Replace c ++ rest) 0 0 0 =
      (utf8DecGo rest 0 0 0).map (fun r => reencodeChar c :: r) := by
  by_cases hA : c < 0x80
  · have e : encodeCharUtf8Replace c = [c] := by
      simp [encodeCharUtf8Replace, hA]
    have hr : reencodeChar c = c := by
      simp only [reencodeChar, isSurrogateCp, ite_eq_right_iff]
      omega
    rw [e, List.cons_append, List.nil_append, utf8DecGo_ascii c rest hA, hr]
  by_cases hB : c < 0x800
  · have e : encodeCharUtf8Replace c = [0xC0 + c / 0x40, 0x80 + c % 0x40] := by
      simp [encodeCharUtf8Replace, hA, hB]
    have hr : reencodeChar c = c := by
      simp only [reencodeChar, isSurrogateCp, ite_eq_right_iff]
      omega
    rw [e, List.cons_append, List.cons_append, List.nil_append,
      utf8DecGo_start2 (0xC0 + c / 0x40) _ (by omega) (by omega),
      utf8DecGo_cont_last (0x80 + c % 0x40) 2 (0xC0 + c / 0x40 - 0xC0) c rest
        (by omega) (by omega) (by omega)
        (Or.inl ⟨rfl, by omega⟩), hr]
  by_cases hS : isSurrogateCp c
  · have e : encodeCharUtf8Replace c = [0x3F] := by
      simp [encodeCharUtf8Replace, hA, hB, hS]
    have hr : reencodeChar c = 0x3F := by
      simp [reencodeChar, hS]
    rw [e, List.cons_append, List.nil_append,
      utf8DecGo_ascii 0x3F rest (by omega), hr]
  by_cases hC : c < 0x10000
  · have e : encodeCharUtf8Replace c =
        [0xE0 + c / 0x1000, 0x80 + c / 0x40 % 0x40, 0x80 + c % 0x40] := by
      simp [encodeCharUtf8Replace, hA, hB, hS, hC]
    have hr : reencodeChar c = c := by
      simp [reencodeChar, hS]
    have hS' : ¬ (0xD800 ≤ c ∧ c ≤ 0xDFFF) := hS
    rw [e, List.cons_append, List.cons_append, List.cons_append,
      List.nil_append,
      utf8DecGo_start3 (0xE0 + c / 0x1000) _ (by omega) (by omega),
      utf8DecGo_cont_mid (0x80 + c / 0x40 % 0x40) 0 3 (0xE0 + c / 0x1000 - 0xE0) _
        (by omega) (by omega),
      utf8DecGo_cont_last (0x80 + c % 0x40) 3
        ((0xE0 + c / 0x1000 - 0xE0) * 0x40 + (0x80 + c / 0x40 % 0x40 - 0x80)) c rest
        (by omega) (by omega) (by omega)
        (Or.inr (Or.inl ⟨rfl, by omega, by unfold isSurrogateCp; omega⟩)), hr]
  · have e : encodeCharUtf8Replace c =
        [0xF0 + c / 0x40000, 0x80 + c / 0x1000 % 0x40, 0x80 + c / 0x40 % 0x40,
         0x80 + c % 0x40] := by
      simp [encodeCharUtf8Replace, hA, hB, hS, hC]
    have hr : reencodeChar c = c := by
      simp [reencodeChar, hS]
    rw [e, List.cons_append, List.cons_append, List.cons_append,
      List.cons_append, List.nil_append,
      utf8DecGo_start4 (0xF0 + c / 0x40000) _ (by omega) (by omega),
      utf8DecGo_cont_mid (0x80 + c / 0x1000 % 0x40) 1 4 (0xF0 + c / 0x40000 - 0xF0) _
        (by omega) (by omega),
      utf8DecGo_cont_mid (0x80 + c / 0x40 % 0x40) 0 4
        ((0xF0 + c / 0x40000 - 0xF0) * 0x40 + (0x80 + c / 0x1000 % 0x40 - 0x80)) _
        (by omega) (by omega),
      utf8DecGo_cont_last (0x80 + c % 0x40) 4
        (((0xF0 + c / 0x40000 - 0xF0) * 0x40 + (0x80 + c / 0x1000 % 0x40 - 0x80)) * 0x40 +
          (0x80 + c / 0x40 % 0x40 - 0x80)) c rest
        (by omega) (by omega) (by omega)
        (Or.inr (Or.inr ⟨rfl, by omega, by omega⟩)), hr]

/-- Round trip: `encode('utf-8', errors='replace')` followed by
`decode('utf-8')` never raises on a Python string and maps each code point
through `reencodeChar`. -/
theorem pyDecodeUtf8_pyEncodeUtf8Replace (s : List Nat) (h : PyValidStr s) :
    pyDecodeUtf8 (pyEncodeUtf8Replace s) = .ok (s.map reencodeChar) := by
  induction s with
  | nil => rfl
  | cons c rest ih =>
    have hc : c < 0x110000 := h c (List.mem_cons_self c rest)
    have hrest : PyValidStr rest := fun x hx => h x (List.mem_cons_of_mem c hx)
    show utf8DecGo (encodeCharUtf8Replace c ++ pyEncodeUtf8Replace rest) 0 0 0 = _
    rw [pyDecodeUtf8_encodeChar c hc]
    have ih' : utf8DecGo (pyEncodeUtf8Replace rest) 0 0 0 =
        .ok (rest.map reencodeChar) := ih hrest
    rw [ih']
    rfl

theorem pyReplace_nil (old new : List Nat) : pyReplace [] old new = [] := by
  simp [pyReplace]

/-- `str.replace` with a one-code-point needle acts pointwise. -/
theorem pyReplace_cons_single (c d : Nat) (rest new : List Nat) :
    pyReplace (c :: rest) [d] new =
      (if c = d then new else [c]) ++ pyReplace rest [d] new := by
  by_cases h : c = d
  · subst h
    have hm : matchesAt [c] (c :: rest) = true := by
      simp [matchesAt]
    rw [pyReplace]
    simp [hm]
  · have hm : ¬ ([d] ≠ [] ∧ matchesAt [d] (c :: rest) = true) := by
      simp only [ne_eq, matchesAt, Bool.and_eq_true, decide_eq_true_eq,
        not_and]
      intro _ hd
      exact absurd hd.symm h
    rw [pyReplace, if_neg hm, if_neg h]
    rfl

/-- Replacing a needle that does not occur leaves the string unchanged. -/
theorem pyReplace_single_id (s : List Nat) (d : Nat) (new : List Nat)
    (h : d ∉ s) : pyReplace s [d] new = s := by
  induction s with
  | nil => exact pyReplace_nil _ _
  | cons c rest ih =>
    have hc : ¬ c = d := fun he => h (he ▸ List.mem_cons_self c rest)
    rw [pyReplace_cons_single, if_neg hc,
      ih (fun hm => h (List.mem_cons_of_mem c hm))]
    rfl

/-- Every code point of the replaced string comes from the replacement or is
a non-needle code point of the original. -/
theorem mem_pyReplace_single (s : List Nat) (d : Nat) (new : List Nat)
    (x : Nat) (hx : x ∈ pyReplace s [d] new) :
    x ∈ new ∨ (x ∈ s ∧ x ≠ d) := by
  induction s with
  | nil => rw [pyReplace_nil] at hx; cases hx
  | cons c rest ih =>
    rw [pyReplace_cons_single] at hx
    rcases List.mem_append.mp hx with h1 | h2
    · by_cases h : c = d
      · rw [if_pos h] at h1
        exact Or.inl h1
      · rw [if_neg h] at h1
        rcases List.mem_singleton.mp h1 with rfl
        exact Or.inr ⟨List.mem_cons_self x rest, h⟩
    · rcases ih h2 with h | ⟨hm, hne⟩
      · exact Or.inl h
      · exact Or.inr ⟨List.mem_cons_of_mem c hm, hne⟩

/-- The full normalization pipeline of `process_response` after the
encode/decode stage has been computed: `reencodeChar` pointwise, then the
two dash substitutions. -/
def normalized (s : List Nat) : List Nat :=
  pyReplace (pyReplace (s.map reencodeChar) [0x2013] [0x2D]) [0x2014]
    [0x2D, 0x2D]

/-- On a Python string, `process_response` returns (never raises) the
normalized string. -/
theorem process_response_core_eq (s : List Nat) (h : PyValidStr s) :
    process_response_core s = .ok (normalized s) := by
  unfold process_response_core
  rw [pyDecodeUtf8_pyEncodeUtf8Replace s h]
  rfl

theorem mem_normalized (s : List Nat) (x : Nat) (hx : x ∈ normalized s) :
    x = 0x2D ∨ ∃ c ∈ s, x = reencodeChar c := by
  rcases mem_pyReplace_single _ _ _ _ hx with h1 | ⟨h2, _⟩
  · exact Or.inl (by simpa using h1)
  · rcases mem_pyReplace_single _ _ _ _ h2 with h3 | ⟨h4, _⟩
    · exact Or.inl (by simpa using h3)
    · rcases List.mem_map.mp h4 with ⟨c, hc, rfl⟩
      exact Or.inr ⟨c, hc, rfl⟩

theorem normalized_no_en_dash (s : List Nat) : 0x2013 ∉ normalized s := by
  intro hx
  rcases mem_pyReplace_single _ _ _ _ hx with h1 | ⟨h2, _⟩
  · simp at h1
  · rcases mem_pyReplace_single _ _ _ _ h2 with h3 | ⟨_, hne⟩
    · simp at h3
    · exact hne rfl

theorem normalized_no_em_dash (s : List Nat) : 0x2014 ∉ normalized s := by
  intro hx
  rcases mem_pyReplace_single _ _ _ _ hx with h1 | ⟨_, hne⟩
  · simp at h1
  · exact hne rfl

theorem reencodeChar_not_surrogate (c : Nat) :
    ¬ isSurrogateCp (reencodeChar c) := by
  unfold reencodeChar
  by_cases h : isSurrogateCp c
  · rw [if_pos h]
    unfold isSurrogateCp
    omega
  · rw [if_neg h]
    exact h

theorem normalized_no_surrogate (s : List Nat) (x : Nat)
    (hx : x ∈ normalized s) : ¬ isSurrogateCp x := by
  rcases mem_normalized s x hx with rfl | ⟨c, _, rfl⟩
  · unfold isSurrogateCp
    omega
  · exact reencodeChar_not_surrogate c

theorem reencodeChar_lt (c : Nat) (h : c < 0x110000) :
    reencodeChar c < 0x110000 := by
  unfold reencodeChar
  by_cases hs : isSurrogateCp c
  · rw [if_pos hs]; omega
  · rw [if_neg hs]; exact h

theorem normalized_valid (s : List Nat) (h : PyValidStr s) :
    PyValidStr (normalized s) := by
  intro x hx
  rcases mem_normalized s x hx with rfl | ⟨c, hc, rfl⟩
  · omega
  · exact reencodeChar_lt c (h c hc)

theorem map_reencodeChar_id (s : List Nat)
    (h : ∀ x ∈ s, ¬ isSurrogateCp x) : s.map reencodeChar = s := by
  induction s with
  | nil => rfl
  | cons c rest ih =>
    have hc : reencodeChar c = c := by
      unfold reencodeChar
      rw [if_neg (h c (List.mem_cons_self c rest))]
    simp only [List.map_cons, hc,
      ih (fun x hx => h x (List.mem_cons_of_mem c hx))]

/-- A string with no surrogates and no dash variants is a fixed point of the
normalization pipeline. -/
theorem normalized_fixed (s : List Nat) (h13 : 0x2013 ∉ s)
    (h14 : 0x2014 ∉ s) (hns : ∀ x ∈ s, ¬ isSurrogateCp x) :
    normalized s = s := by
  unfold normalized
  rw [map_reencodeChar_id s hns, pyReplace_single_id _ _ _ h13,
    pyReplace_single_id _ _ _ h14]

/-- Inversion of a successful construction: the provider must be "gpt4" or
"claude", the configuration record comes from `cfg`, the handle is freshly
allocated at `nextId`, and every field has the constructed value. -/
theorem init_ok_cases (cfg : String → Option ConfigRecord) (n : Nat)
    (mt : String) (key : Option String) (s : LLMModel) (n' : Nat)
    (h : LLMModel.init cfg n mt key = .ok (s, n')) :
    ∃ rec, cfg mt = some rec ∧ n' = n + 1 ∧ (mt = "gpt4" ∨ mt = "claude") ∧
      s = { model_type := mt, config := rec, api_key := key,
            model := ⟨n, if mt = "gpt4" then
                .chatOpenAI rec.model_name rec.temperature rec.max_tokens
                  key 600
              else
                .chatAnthropic rec.model_name rec.temperature rec.max_tokens
                  key 600⟩ } := by
  cases hcm : cfg mt with
  | none => simp [LLMModel.init, hcm] at h
  | some rec =>
    refine ⟨rec, rfl, ?_⟩
    by_cases h4 : mt = "gpt4"
    · subst h4
      simp [LLMModel.init, LLMModel.init_model, hcm] at h
      exact ⟨h.2.symm, Or.inl rfl, h.1.symm⟩
    · by_cases hcl : mt = "claude"
      · subst hcl
        simp [LLMModel.init, LLMModel.init_model, hcm] at h
        exact ⟨h.2.symm, Or.inr rfl, h.1.symm⟩
      · simp [LLMModel.init, LLMModel.init_model, hcm, h4, hcl] at h

/-- A successful credential update: for a valid provider identifier the
rebuild succeeds, stores the new credential, and allocates a fresh handle
with the same configuration. -/
theorem update_api_key_ok (s : LLMModel) (key : String) (m : Nat)
    (h : s.model_type = "gpt4" ∨ s.model_type = "claude") :
    s.update_api_key key m = .ok
      ({ s with api_key := some key,
                model := ⟨m, if s.model_type = "gpt4" then
                    .chatOpenAI s.config.model_name s.config.temperature
                      s.config.max_tokens (some key) 600
                  else
                    .chatAnthropic s.config.model_name s.config.temperature
                      s.config.max_tokens (some key) 600⟩ }, m + 1) := by
  rcases h with h | h <;>
    simp [LLMModel.update_api_key, LLMModel.init_model, h]

/-- The invariant of the spec's data model: the client handle was built for
the currently stored provider identifier, from the currently stored
configuration record and credential, with the fixed 600-second timeout. -/
def ConsistentState (s : LLMModel) : Prop :=
  (s.model_type = "gpt4" ∧
    s.model.spec = .chatOpenAI s.config.model_name s.config.temperature
      s.config.max_tokens s.api_key 600) ∨
  (s.model_type = "claude" ∧
    s.model.spec = .chatAnthropic s.config.model_name s.config.temperature
      s.config.max_tokens s.api_key 600)

/-- The adapter states reachable through the public lifecycle: construction
(`__init__`) followed by any number of credential updates
(`update_api_key`). The allocation counter is threaded along. -/
inductive Reachable (cfg : String → Option ConfigRecord) :
    LLMModel → Nat → Prop where
  | construct (mt : String) (key : Option String) (n : Nat) (s : LLMModel)
      (n' : Nat) (h : LLMModel.init cfg n mt key = .ok (s, n')) :
      Reachable cfg s n'
  | update (s : LLMModel) (n : Nat) (key : String) (s' : LLMModel) (n' : Nat)
      (hr : Reachable cfg s n) (h : s.update_api_key key n = .ok (s', n')) :
      Reachable cfg s' n'

theorem consistent_model_type (s : LLMModel) (h : ConsistentState s) :
    s.model_type = "gpt4" ∨ s.model_type = "claude" := by
  rcases h with ⟨h, _⟩ | ⟨h, _⟩
  · exact Or.inl h
  · exact Or.inr h

/-- From a consistent state, a credential update always succeeds and
re-establishes consistency. -/
theorem update_consistent (s : LLMModel) (hc : ConsistentState s)
    (key : String) (m : Nat) :
    ∃ s' m', s.update_api_key key m = .ok (s', m') ∧ ConsistentState s' := by
  have hmt := consistent_model_type s hc
  refine ⟨_, _, update_api_key_ok s key m hmt, ?_⟩
  rcases hmt with h | h
  · exact Or.inl ⟨h, by simp [h]⟩
  · have h4 : ¬ s.model_type = "gpt4" := by
      rw [h]; decide
    exact Or.inr ⟨h, by simp [h, h4]⟩

/-- Code points of a Lean string literal, for readable concrete examples. -/
def pyStrOfString (s : String) : List Nat :=
  s.toList.map Char.toNat

/-- C1 counterexample: constructing with the unsupported provider "gemini"
raises the `KeyError` of the `LLM_CONFIG["gemini"]` lookup in `__init__`,
which is not the `ValueError("Unsupported model type: ...")` the claim
names — that branch of `_initialize_model` is never reached during
construction with an unknown provider. -/
theorem construct_unsupported_counterexample :
    LLMModel.init sampleConfig 0 "gemini" none =
      .error (.keyError "gemini") ∧
    ∀ msg : String,
      (Except.error (PyError.keyError "gemini") :
        Except PyError (LLMModel × Nat)) ≠ .error (.valueError msg) := by
  refine ⟨rfl, fun msg h => ?_⟩
  injection h with h'
  cases h'

/-- C1 (amended): for every providerId outside the configuration mapping
(whose keys are exactly "gpt4" and "claude"), construction fails
synchronously — but with the `KeyError` of the configuration lookup, not
with the `ValueError` of `_initialize_model`. -/
theorem construct_unsupported_keyError (cfg : String → Option ConfigRecord)
    (hcfg : specConfigKeys cfg) (mt : String) (h1 : mt ≠ "gpt4")
    (h2 : mt ≠ "claude") (key : Option String) (n : Nat) :
    LLMModel.init cfg n mt key = .error (.keyError mt) := by
  have hnone : cfg mt = none := by
    cases hx : cfg mt with
    | none => rfl
    | some r =>
      have hk := (hcfg mt).mp (by rw [hx]; rfl)
      rcases hk with h | h
      · exact absurd h h1
      · exact absurd h h2
  simp [LLMModel.init, hnone]

theorem construct_unsupported_keyError_witness :
    specConfigKeys sampleConfig ∧ "gemini" ≠ "gpt4" ∧ "gemini" ≠ "claude" ∧
    LLMModel.init sampleConfig 0 "gemini" none =
      .error (.keyError "gemini") :=
  ⟨sampleConfig_specKeys, by decide, by decide,
    construct_unsupported_keyError sampleConfig sampleConfig_specKeys
      "gemini" (by decide) (by decide) none 0⟩

/-- C2: for a provider in {"gpt4","claude"} and any credential,
construction succeeds and `get_model` returns a handle whose model name,
temperature and token budget equal the fields of the configuration record
and whose request timeout is 600 seconds. -/
theorem construct_get_model_config (cfg : String → Option ConfigRecord)
    (hcfg : specConfigKeys cfg) (mt : String)
    (hmt : mt = "gpt4" ∨ mt = "claude") (key : Option String) (n : Nat) :
    ∃ s n' rec, cfg mt = some rec ∧
      LLMModel.init cfg n mt key = .ok (s, n') ∧
      s.get_model.model_name = rec.model_name ∧
      s.get_model.temperature = rec.temperature ∧
      s.get_model.max_tokens = rec.max_tokens ∧
      s.get_model.timeout = 600 := by
  have hsome : (cfg mt).isSome := (hcfg mt).mpr hmt
  obtain ⟨rec, hrec⟩ := Option.isSome_iff_exists.mp hsome
  rcases hmt with rfl | rfl
  · exact ⟨⟨"gpt4", rec, key, ⟨n, .chatOpenAI rec.model_name rec.temperature
      rec.max_tokens key 600⟩⟩, n + 1, rec, hrec,
      by simp [LLMModel.init, LLMModel.init_model, hrec], rfl, rfl, rfl, rfl⟩
  · exact ⟨⟨"claude", rec, key, ⟨n, .chatAnthropic rec.model_name
      rec.temperature rec.max_tokens key 600⟩⟩, n + 1, rec, hrec,
      by simp [LLMModel.init, LLMModel.init_model, hrec], rfl, rfl, rfl, rfl⟩

theorem construct_get_model_config_witness :
    specConfigKeys sampleConfig ∧
    ((("claude" : String) = "gpt4") ∨ (("claude" : String) = "claude")) ∧
    ∃ s n' rec, sampleConfig "claude" = some rec ∧
      LLMModel.init sampleConfig 7 "claude" (some "sk-test") = .ok (s, n') ∧
      s.get_model.model_name = rec.model_name ∧
      s.get_model.temperature = rec.temperature ∧
      s.get_model.max_tokens = rec.max_tokens ∧
      s.get_model.timeout = 600 :=
  ⟨sampleConfig_specKeys, Or.inr rfl,
    construct_get_model_config sampleConfig sampleConfig_specKeys "claude"
      (Or.inr rfl) (some "sk-test") 7⟩

/-- If a consistent state performs `update_api_key` and the call returns
normally, the resulting state is consistent. -/
theorem update_consistent_of_eq (s s' : LLMModel) (key : String)
    (m m' : Nat) (hc : ConsistentState s)
    (h : s.update_api_key key m = .ok (s', m')) : ConsistentState s' := by
  obtain ⟨s'', m'', heq, hcons⟩ := update_consistent s hc key m
  rw [h] at heq
  injection heq with hp
  cases hp
  exact hcons

/-- C3: every adapter state reachable through the public lifecycle has a
client handle consistent with the stored provider identifier, configuration
and credential; moreover, from such a state `update_api_key` always returns
normally (the defensive `ValueError` path is unreachable, so the caller can
never observe a state whose credential and handle disagree) and
re-establishes consistency. -/
theorem reachable_handle_consistent (cfg : String → Option ConfigRecord)
    (s : LLMModel) (n : Nat) (h : Reachable cfg s n) :
    ConsistentState s ∧
    ∀ key m, ∃ s' m', s.update_api_key key m = .ok (s', m') ∧
      ConsistentState s' := by
  have hc : ConsistentState s := by
    induction h with
    | construct mt key n0 s0 n0' hinit =>
      obtain ⟨rec, hrec, hn, hmt, hs⟩ := init_ok_cases _ _ _ _ _ _ hinit
      subst hs
      rcases hmt with rfl | rfl
      · exact Or.inl ⟨rfl, by simp⟩
      · exact Or.inr ⟨rfl, by simp⟩
    | update s0 n0 key s' n' hr hupd ih =>
      exact update_consistent_of_eq s0 s' key n0 n' ih hupd
  exact ⟨hc, fun key m => update_consistent s hc key m⟩

theorem reachable_handle_consistent_witness :
    ConsistentState ⟨"gpt4", ⟨"gpt-4", 0, 4096⟩, some "k1",
      ⟨0, .chatOpenAI "gpt-4" 0 4096 (some "k1") 600⟩⟩ :=
  (reachable_handle_consistent sampleConfig _ 1
    (Reachable.construct "gpt4" (some "k1") 0 _ 1 rfl)).1

/-- C4: after construction, updating the credential and reading the handle
yields a handle that carries the new credential and is a different object
from the pre-update handle, while the provider identifier, the stored
configuration and the handle's configuration fields are unchanged. -/
theorem update_credential_fresh_handle (cfg : String → Option ConfigRecord)
    (n : Nat) (mt : String) (key : Option String) (newKey : String)
    (s : LLMModel) (n' : Nat)
    (hinit : LLMModel.init cfg n mt key = .ok (s, n')) :
    ∃ s' n'', s.update_api_key newKey n' = .ok (s', n'') ∧
      s'.get_model.credential = some newKey ∧
      s'.get_model ≠ s.get_model ∧
      s'.model_type = s.model_type ∧
      s'.config = s.config ∧
      s'.get_model.model_name = s.get_model.model_name ∧
      s'.get_model.temperature = s.get_model.temperature ∧
      s'.get_model.max_tokens = s.get_model.max_tokens := by
  obtain ⟨rec, hrec, hn, hmt, hs⟩ := init_ok_cases _ _ _ _ _ _ hinit
  subst hs
  subst hn
  rcases hmt with hmt4 | hmtc
  · subst hmt4
    refine ⟨_, _, update_api_key_ok _ newKey (n + 1) (Or.inl rfl),
      rfl, ?_, rfl, rfl, rfl, rfl, rfl⟩
    intro he
    have hobj := congrArg ClientHandle.objId he
    simp [LLMModel.get_model] at hobj
  · subst hmtc
    refine ⟨_, _, update_api_key_ok _ newKey (n + 1) (Or.inr rfl),
      rfl, ?_, rfl, rfl, rfl, rfl, rfl⟩
    intro he
    have hobj := congrArg ClientHandle.objId he
    simp [LLMModel.get_model] at hobj

theorem update_credential_fresh_handle_witness :
    LLMModel.init sampleConfig 0 "gpt4" (some "key1") =
      .ok (⟨"gpt4", ⟨"gpt-4", 0, 4096⟩, some "key1",
        ⟨0, .chatOpenAI "gpt-4" 0 4096 (some "key1") 600⟩⟩, 1) ∧
    ∃ s' n'',
      LLMModel.update_api_key ⟨"gpt4", ⟨"gpt-4", 0, 4096⟩, some "key1",
        ⟨0, .chatOpenAI "gpt-4" 0 4096 (some "key1") 600⟩⟩ "key2" 1 =
        .ok (s', n'') ∧
      s'.get_model.credential = some "key2" ∧
      s'.get_model ≠ LLMModel.get_model ⟨"gpt4", ⟨"gpt-4", 0, 4096⟩,
        some "key1", ⟨0, .chatOpenAI "gpt-4" 0 4096 (some "key1") 600⟩⟩ ∧
      s'.model_type = "gpt4" ∧
      s'.config = ⟨"gpt-4", 0, 4096⟩ ∧
      s'.get_model.model_name = "gpt-4" ∧
      s'.get_model.temperature = 0 ∧
      s'.get_model.max_tokens = 4096 :=
  ⟨rfl, update_credential_fresh_handle sampleConfig 0 "gpt4" (some "key1")
    "key2" _ 1 rfl⟩

/-- C5: `process_response` is idempotent — applying it to its own output
reproduces that output unchanged. -/
theorem process_response_idempotent (s : List Nat) (h : PyValidStr s) :
    (process_response_core s).bind process_response_core =
      process_response_core s := by
  rw [process_response_core_eq s h]
  show process_response_core (normalized s) = .ok (normalized s)
  rw [process_response_core_eq _ (normalized_valid s h),
    normalized_fixed _ (normalized_no_en_dash s) (normalized_no_em_dash s)
      (normalized_no_surrogate s)]

theorem process_response_idempotent_witness :
    PyValidStr [0x63, 0x2013, 0xD800, 0x2014] ∧
    (process_response_core [0x63, 0x2013, 0xD800, 0x2014]).bind
        process_response_core =
      process_response_core [0x63, 0x2013, 0xD800, 0x2014] :=
  ⟨by decide, process_response_idempotent [0x63, 0x2013, 0xD800, 0x2014]
    (by decide)⟩

/-- C6: `process_response` performs the two literal substitutions — EN DASH
(U+2013) by "-" and EM DASH (U+2014) by "--" — on the re-encoded text; its
output contains neither dash variant and survives the UTF-8
encode-then-decode round trip unchanged. -/
theorem process_response_no_dash_variants (s t : List Nat) (h : PyValidStr s)
    (ht : process_response_core s = .ok t) :
    t = pyReplace (pyReplace (s.map reencodeChar) [0x2013] [0x2D]) [0x2014]
        [0x2D, 0x2D] ∧
    0x2013 ∉ t ∧ 0x2014 ∉ t ∧
    pyDecodeUtf8 (pyEncodeUtf8Replace t) = .ok t := by
  rw [process_response_core_eq s h] at ht
  injection ht with ht'
  subst ht'
  refine ⟨rfl, normalized_no_en_dash s, normalized_no_em_dash s, ?_⟩
  rw [pyDecodeUtf8_pyEncodeUtf8Replace _ (normalized_valid s h),
    map_reencodeChar_id _ (normalized_no_surrogate s)]

theorem process_response_no_dash_variants_witness :
    PyValidStr [0x61, 0x2013, 0x2014] ∧
    process_response_core [0x61, 0x2013, 0x2014] =
      .ok [0x61, 0x2D, 0x2D, 0x2D] ∧
    ([0x61, 0x2D, 0x2D, 0x2D] =
      pyReplace (pyReplace (List.map reencodeChar [0x61, 0x2013, 0x2014])
        [0x2013] [0x2D]) [0x2014] [0x2D, 0x2D] ∧
     0x2013 ∉ [0x61, 0x2D, 0x2D, 0x2D] ∧ 0x2014 ∉ [0x61, 0x2D, 0x2D, 0x2D] ∧
     pyDecodeUtf8 (pyEncodeUtf8Replace [0x61, 0x2D, 0x2D, 0x2D]) =
       .ok [0x61, 0x2D, 0x2D, 0x2D]) := by
  have hv : PyValidStr [0x61, 0x2013, 0x2014] := by decide
  have hrepl : pyReplace (pyReplace (List.map reencodeChar
      [0x61, 0x2013, 0x2014]) [0x2013] [0x2D]) [0x2014] [0x2D, 0x2D] =
      [0x61, 0x2D, 0x2D, 0x2D] := by
    have hmap : List.map reencodeChar [0x61, 0x2013, 0x2014] =
        [0x61, 0x2013, 0x2014] := rfl
    rw [hmap]
    simp [pyReplace_cons_single, pyReplace_nil]
  have hok : process_response_core [0x61, 0x2013, 0x2014] =
      .ok [0x61, 0x2D, 0x2D, 0x2D] := by
    rw [process_response_core_eq _ hv]
    unfold normalized
    rw [hrepl]
  exact ⟨hv, hok,
    process_response_no_dash_variants [0x61, 0x2013, 0x2014]
      [0x61, 0x2D, 0x2D, 0x2D] hv hok⟩

/-- C7: `process_response` is total on Python strings — the re-encoding
step substitutes every unencodable code point (a lone surrogate) with the
replacement marker `?` (0x3F) instead of raising, and the whole function
returns a value. -/
theorem process_response_never_fails (s : List Nat) (h : PyValidStr s) :
    (∃ t, process_response_core s = .ok t) ∧
    pyDecodeUtf8 (pyEncodeUtf8Replace s) = .ok (s.map reencodeChar) ∧
    ∀ c, isSurrogateCp c → reencodeChar c = 0x3F :=
  ⟨⟨normalized s, process_response_core_eq s h⟩,
    pyDecodeUtf8_pyEncodeUtf8Replace s h,
    fun c hc => by unfold reencodeChar; rw [if_pos hc]⟩

theorem process_response_never_fails_witness :
    PyValidStr [0xD800, 0x61] ∧
    ((∃ t, process_response_core [0xD800, 0x61] = .ok t) ∧
     pyDecodeUtf8 (pyEncodeUtf8Replace [0xD800, 0x61]) =
       .ok (List.map reencodeChar [0xD800, 0x61]) ∧
     ∀ c, isSurrogateCp c → reencodeChar c = 0x3F) :=
  ⟨by decide, process_response_never_fails [0xD800, 0x61] (by decide)⟩

/-- C8: the spec's concrete example — "café – 2024 — test" (EN DASH and EM
DASH) normalizes to exactly "café - 2024 -- test". -/
theorem process_response_cafe_example :
    process_response_core (pyStrOfString "café – 2024 — test") =
      .ok (pyStrOfString "café - 2024 -- test") := by
  have e1 : pyStrOfString "café – 2024 — test" =
      [0x63, 0x61, 0x66, 0xE9, 0x20, 0x2013, 0x20, 0x32, 0x30, 0x32, 0x34,
       0x20, 0x2014, 0x20, 0x74, 0x65, 0x73, 0x74] := rfl
  have e2 : pyStrOfString "café - 2024 -- test" =
      [0x63, 0x61, 0x66, 0xE9, 0x20, 0x2D, 0x20, 0x32, 0x30, 0x32, 0x34,
       0x20, 0x2D, 0x2D, 0x20, 0x74, 0x65, 0x73, 0x74] := rfl
  rw [e1, e2, process_response_core_eq _ (by decide)]
  unfold normalized
  have hmap : List.map reencodeChar
      [0x63, 0x61, 0x66, 0xE9, 0x20, 0x2013, 0x20, 0x32, 0x30, 0x32, 0x34,
       0x20, 0x2014, 0x20, 0x74, 0x65, 0x73, 0x74] =
      [0x63, 0x61, 0x66, 0xE9, 0x20, 0x2013, 0x20, 0x32, 0x30, 0x32, 0x34,
       0x20, 0x2014, 0x20, 0x74, 0x65, 0x73, 0x74] := rfl
  rw [hmap]
  simp [pyReplace_cons_single, pyReplace_nil]

/-- C9: `process_response` is a pure function of its input — as a method it
leaves the adapter state untouched, and its output does not depend on any
adapter field (hence two calls on the same input, from any states, agree). -/
theorem process_response_pure_method (self other : LLMModel)
    (s : List Nat) :
    (self.process_response s).1 = self ∧
    (self.process_response s).2 = (other.process_response s).2 :=
  ⟨rfl, rfl⟩

/-- C10: `__init__`'s defaults, absent from the spec: omitting both
arguments is the same as passing providerId "gpt4" and credential `None`,
and the `None` credential is stored and handed to the client constructor
unchanged (default-key resolution is the collaborator's business). -/
theorem init_default_args (cfg : String → Option ConfigRecord)
    (hcfg : specConfigKeys cfg) (n : Nat) :
    LLMModel.init cfg n = LLMModel.init cfg n "gpt4" none ∧
    ∃ s n', LLMModel.init cfg n = .ok (s, n') ∧ s.api_key = none ∧
      s.get_model.credential = none := by
  refine ⟨rfl, ?_⟩
  have hsome : (cfg "gpt4").isSome := (hcfg "gpt4").mpr (Or.inl rfl)
  obtain ⟨rec, hrec⟩ := Option.isSome_iff_exists.mp hsome
  exact ⟨⟨"gpt4", rec, none, ⟨n, .chatOpenAI rec.model_name rec.temperature
    rec.max_tokens none 600⟩⟩, n + 1,
    by simp [LLMModel.init, LLMModel.init_model, hrec], rfl, rfl⟩

theorem init_default_args_witness :
    specConfigKeys sampleConfig ∧
    (LLMModel.init sampleConfig 3 = LLMModel.init sampleConfig 3 "gpt4" none ∧
     ∃ s n', LLMModel.init sampleConfig 3 = .ok (s, n') ∧ s.api_key = none ∧
       s.get_model.credential = none) :=
  ⟨sampleConfig_specKeys, init_default_args sampleConfig
    sampleConfig_specKeys 3⟩
